import Mathlib

/-!
# Verification of the audio capture / transcription pipeline

Shallow embedding of the segmentation and transcription core of the
repository (`src/audio_capture.py`, `src/transcription.py`).

Conventions of the embedding:

* Audio samples and timestamps are rationals (`ℚ`); `time.time()` becomes an
  explicit `now : ℚ` argument to each function that reads the clock.
* The source computes `rms = sqrt(mean(x**2))` and only ever *compares* it
  with configured thresholds.  `ℚ` has no square root, so the embedding
  carries the mean of squares (`meanSq`) and compares in the squared domain:
  `sqrt m > t` is `sqrtGt m t` (`t < 0 ∨ t² < m`) and `sqrt m < t` is
  `sqrtLt m t` (`0 < t ∧ m < t²`); both agree with the source for every
  rational threshold because `sqrt` is strictly monotone on nonnegatives and
  `sqrt m ≥ 0`.  Consequently the audio-level history stores squared RMS
  values: an entry `m` of the embedded history represents the source value
  `sqrt m`.
* Python attribute lookups with a fallback (`getattr(config, name, default)`)
  become `Option` fields read with `Option.getD`.
* Logging is dropped except where it mutates state (`_last_debug_log`).
* File I/O is represented by the data that would be written: a saved WAV file
  is its list of 16-bit PCM samples; queue `put`s and callback invocations are
  recorded in explicit event lists of the state.
-/

namespace AudioPipeline

/-- Mean of squares of a sample list; the source's `np.mean(audio_data**2)`,
so that the source's `rms` is `sqrt (meanSq xs)`.  Empty input yields `0`
(the source never scores an empty frame). -/
def meanSq (xs : List ℚ) : ℚ := (xs.map fun x => x * x).sum / xs.length

/-- Embeds the source comparison `sqrt m > t` for `m ≥ 0`: true when `t < 0`
(an RMS is nonnegative), otherwise `t² < m`. -/
def sqrtGt (m t : ℚ) : Bool := decide (t < 0) || decide (t ^ 2 < m)

/-- Embeds the source comparison `sqrt m < t` for `m ≥ 0`: requires `0 < t`
and `m < t²`. -/
def sqrtLt (m t : ℚ) : Bool := decide (0 < t) && decide (m < t ^ 2)

/-- Structure `AudioConfig` from `src/config.py` (the fields the capture core reads).
`min_audio_duration` and `noise_gate_threshold` are read via `getattr` with a
fallback in `audio_capture.py`, so they are `Option`s here (`none` models an
absent attribute). -/
structure AudioConfig where
  sample_rate : ℕ
  channels : ℕ
  chunk_duration : ℚ
  silence_threshold : ℚ
  silence_duration : ℚ
  min_audio_duration : Option ℚ
  noise_gate_threshold : Option ℚ
  deriving Repr, DecidableEq

/-- The dataclass defaults of `AudioConfig` in `src/config.py`. -/
def defaultAudioConfig : AudioConfig :=
  { sample_rate := 16000
    channels := 1
    chunk_duration := 300
    silence_threshold := 1/50        -- 0.02
    silence_duration := 5
    min_audio_duration := some 3
    noise_gate_threshold := some (3/200) }  -- 0.015

/-- A finalized audio segment together with the PCM data written to its WAV
file (`AudioSegment` in the source plus the file's contents; the file path is
determined by `end_time`, so it is not repeated here). -/
structure SavedSegment where
  start_time : ℚ
  end_time : ℚ
  duration : ℚ
  sample_rate : ℕ
  wav_samples : List ℤ
  deriving Repr, DecidableEq

/-- The mutable state of `AudioCapture` that the capture-side claims touch:
the paused flag, the frame buffer (`_audio_buffer`, a list of mono frames),
the silence-detection state, the diagnostics history, and the observable
output events (segment queue contents and segment-complete callback
invocations). -/
structure CaptureState where
  paused : Bool
  audio_buffer : List (List ℚ)
  silence_start : Option ℚ
  last_audio_time : Option ℚ
  last_debug_log : Option ℚ
  audio_level_history : List ℚ
  max_recent_level : ℚ
  segment_queue : List SavedSegment
  callback_events : List SavedSegment
  deriving Repr, DecidableEq

/-- State right after `AudioCapture.__init__`. -/
def initialCaptureState : CaptureState :=
  { paused := false
    audio_buffer := []
    silence_start := none
    last_audio_time := none
    last_debug_log := none
    audio_level_history := []
    max_recent_level := 0
    segment_queue := []
    callback_events := [] }

/-- Python's `max` over a nonempty list (used for `_max_recent_level`). -/
def listMax (l : List ℚ) : ℚ := l.foldl max (l.headD 0)

/-- Method `_update_silence_detection(audio_data)` at clock time `now`: score one
mono frame, append its (squared) RMS to the history capped at 100 entries,
refresh `_max_recent_level` and the debug-log timestamp, and update the
silence timer / last-audio timestamp against `silence_threshold`. -/
def updateSilenceDetection (c : AudioConfig) (s : CaptureState) (now : ℚ)
    (audio_data : List ℚ) : CaptureState :=
  let m := meanSq audio_data
  let history1 := s.audio_level_history ++ [m]
  let history2 := if history1.length > 100 then history1.tail else history1
  let maxLevel := listMax history2
  let lastDebug : Option ℚ :=
    match s.last_debug_log with
    | none => some now
    | some t => if now - t > 5 then some now else some t
  if sqrtGt m c.silence_threshold then
    { s with audio_level_history := history2
             max_recent_level := maxLevel
             last_debug_log := lastDebug
             silence_start := none
             last_audio_time := some now }
  else
    { s with audio_level_history := history2
             max_recent_level := maxLevel
             last_debug_log := lastDebug
             silence_start := if s.silence_start = none then some now
                              else s.silence_start }

/-- Method `_should_segment_on_silence()` at clock time `now`. -/
def shouldSegmentOnSilence (c : AudioConfig) (s : CaptureState) (now : ℚ) :
    Bool :=
  match s.silence_start, s.last_audio_time with
  | some ss, some _ =>
      decide (s.audio_buffer.length > 0) && decide (now - ss ≥ c.silence_duration)
  | _, _ => false

/-- Truncation toward zero of a rational, the effect of numpy's
float-to-integer `astype` on an in-range value. -/
def ratTrunc (q : ℚ) : ℤ := if 0 ≤ q then ⌊q⌋ else ⌈q⌉

/-- Reduction of an integer into the 16-bit two's-complement range, the
wraparound numpy's `astype(np.int16)` applies to out-of-range values. -/
def wrap16 (z : ℤ) : ℤ := (z + 32768) % 65536 - 32768

/-- One sample of `(audio_data * 32767).astype(np.int16)`: scale by 32767,
truncate toward zero, wrap modulo 2¹⁶ into int16. -/
def encodeSample (x : ℚ) : ℤ := wrap16 (ratTrunc (x * 32767))

/-- The int16 PCM data written to the WAV file for a float buffer. -/
def encodeInt16 (xs : List ℚ) : List ℤ := xs.map encodeSample

/-- Decode one 16-bit PCM sample back to a float in `[-1, 1]`. -/
def decodeSample (z : ℤ) : ℚ := (z : ℚ) / 32767

/-- Split a sample list into consecutive chunks of `n` samples (the last one
possibly shorter), the `range(0, len(audio_data), chunk_size)` slicing of
`_has_sufficient_audio_content`; every produced chunk is nonempty, matching
the source's `len(chunk) > 0` guard.  `n = 0` yields no chunks (the source
would raise on a zero `range` step; real sample rates never produce it). -/
def splitChunks (n : ℕ) (l : List ℚ) : List (List ℚ) :=
  if h : n = 0 ∨ l = [] then []
  else l.take n :: splitChunks n (l.drop n)
termination_by l.length
decreasing_by
  push_neg at h
  have hl : l.length ≠ 0 := fun hz => h.2 (List.length_eq_zero.mp hz)
  simp only [List.length_drop]
  omega

/-- The effective noise gate:
`getattr(self.config, "noise_gate_threshold", self.config.silence_threshold)`. -/
def noiseGate (c : AudioConfig) : ℚ :=
  c.noise_gate_threshold.getD c.silence_threshold

/-- The 100 ms sub-chunks of a buffer: chunk size
`int(self.config.sample_rate * 0.1)`, i.e. one tenth of the sample rate. -/
def contentChunks (c : AudioConfig) (audio_data : List ℚ) : List (List ℚ) :=
  splitChunks (c.sample_rate / 10) audio_data

/-- Counter `above_threshold_chunks`: sub-chunks whose RMS strictly exceeds the
noise gate. -/
def aboveThresholdChunks (c : AudioConfig) (audio_data : List ℚ) : ℕ :=
  ((contentChunks c audio_data).filter
    fun ch => sqrtGt (meanSq ch) (noiseGate c)).length

/-- Counter `total_chunks`. -/
def totalChunks (c : AudioConfig) (audio_data : List ℚ) : ℕ :=
  (contentChunks c audio_data).length

/-- Ratio `content_ratio = above_threshold_chunks / total_chunks`. -/
def contentRatio (c : AudioConfig) (audio_data : List ℚ) : ℚ :=
  (aboveThresholdChunks c audio_data : ℚ) / (totalChunks c audio_data : ℚ)

/-- Method `_has_sufficient_audio_content(audio_data)`: reject when the overall RMS
is below the noise gate, when there are no sub-chunks, or when the content
ratio is below 10%. -/
def hasSufficientAudioContent (c : AudioConfig) (audio_data : List ℚ) : Bool :=
  if sqrtLt (meanSq audio_data) (noiseGate c) then false
  else if totalChunks c audio_data = 0 then false
  else decide (contentRatio c audio_data ≥ 1/10)

/-- Segment duration in seconds: `len(audio_data) / self.config.sample_rate`. -/
def durationOf (c : AudioConfig) (audio_data : List ℚ) : ℚ :=
  (audio_data.length : ℚ) / (c.sample_rate : ℚ)

/-- Method `_save_current_buffer()` at clock time `now`: concatenate and clear the
frame buffer, discard short or low-content audio, otherwise encode the buffer
as 16-bit PCM, build the `AudioSegment`, enqueue it and invoke the
segment-complete callback.  Returns the new state and the produced segment
(`none` on every discard path: no file written, nothing enqueued, no
callback). -/
def saveCurrentBuffer (c : AudioConfig) (s : CaptureState) (now : ℚ) :
    CaptureState × Option SavedSegment :=
  if s.audio_buffer = [] then (s, none)
  else
    let audio_data := s.audio_buffer.flatten
    let s1 := { s with audio_buffer := [] }
    if audio_data = [] then (s1, none)
    else
      let duration := durationOf c audio_data
      let min_duration := c.min_audio_duration.getD 2
      if duration < min_duration then (s1, none)
      else if ¬ hasSufficientAudioContent c audio_data then (s1, none)
      else
        let seg : SavedSegment :=
          { start_time := now - duration
            end_time := now
            duration := duration
            sample_rate := c.sample_rate
            wav_samples := encodeInt16 audio_data }
        ({ s1 with segment_queue := s1.segment_queue ++ [seg]
                   callback_events := s1.callback_events ++ [seg] },
         some seg)

/-- One iteration of the `_record_loop` polling body at clock time `now`:
the time-based flush check (`chunk_duration` cap) followed by the
silence-based flush check.  Returns the new state, the new
`segment_start_time`, and the segments produced by this iteration's flushes. -/
def recordLoopIter (c : AudioConfig) (s : CaptureState)
    (segment_start now : ℚ) : CaptureState × ℚ × List SavedSegment :=
  let step1 :=
    if now - segment_start ≥ c.chunk_duration then
      let r := saveCurrentBuffer c s now
      (r.1, now, r.2.toList)
    else (s, segment_start, [])
  if shouldSegmentOnSilence c step1.1 now then
    let r := saveCurrentBuffer c step1.1 now
    (r.1, now, step1.2.2 ++ r.2.toList)
  else step1

/-- Method `pause_recording()`. -/
def pauseRecording (s : CaptureState) : CaptureState := { s with paused := true }

/-- Method `resume_recording()`. -/
def resumeRecording (s : CaptureState) : CaptureState := { s with paused := false }

/-- Down-mix one delivered frame to mono: arithmetic mean across channels when
the stream has more than one channel, otherwise the single channel.  `indata`
is row-major: one inner list of `channels` values per sample instant. -/
def toMono (channels : ℕ) (indata : List (List ℚ)) : List ℚ :=
  if channels > 1 then indata.map fun row => row.sum / row.length
  else indata.map fun row => row.headD 0

/-- Method `_audio_callback(indata, ...)` at clock time `now`: drop the frame when
paused; otherwise down-mix to mono, append to the buffer, and run silence
detection on it. -/
def audioCallback (c : AudioConfig) (s : CaptureState) (now : ℚ)
    (indata : List (List ℚ)) : CaptureState :=
  if s.paused then s
  else
    let audio_data := toMono c.channels indata
    updateSilenceDetection c
      { s with audio_buffer := s.audio_buffer ++ [audio_data] } now audio_data

/-- Method `get_audio_levels()`: the diagnostics mapping, as an ordered
key–value list (insertion order of the Python dict literals). -/
def getAudioLevels (c : AudioConfig) (s : CaptureState) : List (String × ℚ) :=
  if s.audio_level_history = [] then
    [("current", 0), ("average", 0), ("maximum", 0),
     ("threshold", c.silence_threshold)]
  else
    [("current", s.audio_level_history.getLastD 0),
     ("average", s.audio_level_history.sum / s.audio_level_history.length),
     ("maximum", listMax s.audio_level_history),
     ("threshold", c.silence_threshold),
     ("samples", (s.audio_level_history.length : ℚ))]

/-- Score a sequence of timestamped mono frames in order
(iterated `_update_silence_detection`). -/
def scoreFrames (c : AudioConfig) (s : CaptureState)
    (evs : List (ℚ × List ℚ)) : CaptureState :=
  evs.foldl (fun st e => updateSilenceDetection c st e.1 e.2) s

/-- One timed text segment returned by the transcription engine
(`{start, end, text, avg_logprob}`; `end` is a Lean keyword, hence
`endTime`). -/
structure WhisperSegment where
  start : ℚ
  endTime : ℚ
  text : String
  avg_logprob : ℚ
  deriving Repr, DecidableEq

/-- What a successful engine invocation returns: the ordered timed segments,
the detected language and its probability. -/
structure EngineOutput where
  segments : List WhisperSegment
  language : String
  language_probability : ℚ
  deriving Repr, DecidableEq

/-- An `AudioSegment` as seen by the transcription worker, together with the
environment of its processing: whether its backing file still exists when the
worker reaches it, the engine's outcome on it (`none` models the engine
raising), the wall-clock duration of the engine call, and the completion
timestamp. -/
structure QueuedSegment where
  seg_id : ℕ
  file_exists : Bool
  engine_outcome : Option EngineOutput
  elapsed : ℚ
  timestamp : ℚ
  deriving Repr, DecidableEq

/-- Record `TranscriptionResult` of the source. -/
structure TranscriptionResult where
  audio_segment : QueuedSegment
  text : String
  language : String
  confidence : ℚ
  processing_time : ℚ
  timestamp : ℚ
  segments : List WhisperSegment
  deriving Repr, DecidableEq

/-- Method `_transcribe_segment(segment)`: skip (returning `None`, raising nothing)
when the backing file is missing; return `None` when the engine raises (the
exception is caught and logged); otherwise assemble the full text by joining
the stripped segment texts and build the `TranscriptionResult`. -/
def transcribeSegment (seg : QueuedSegment) : Option TranscriptionResult :=
  if seg.file_exists = false then none
  else
    match seg.engine_outcome with
    | none => none
    | some out =>
        some { audio_segment := seg
               text := (String.intercalate " "
                 (out.segments.map fun w => w.text.trim)).trim
               language := out.language
               confidence := out.language_probability
               processing_time := seg.elapsed
               timestamp := seg.timestamp
               segments := out.segments }

/-- The worker's mutable state: published results (`_result_queue`),
completion-callback invocations, and the aggregate statistics
(`_total_processed`, `_total_processing_time`). -/
structure TransState where
  results : List TranscriptionResult
  callback_events : List TranscriptionResult
  total_processed : ℕ
  total_processing_time : ℚ
  deriving Repr, DecidableEq

/-- Worker state right after `TranscriptionService.__init__`. -/
def initialTransState : TransState :=
  { results := [], callback_events := [], total_processed := 0
    total_processing_time := 0 }

/-- The body of `_processing_loop` for one dequeued segment: transcribe it;
on success publish the result, fire the callback and update the statistics;
on failure (missing file or engine error) change nothing. -/
def processOne (st : TransState) (seg : QueuedSegment) : TransState :=
  match transcribeSegment seg with
  | none => st
  | some r =>
      { results := st.results ++ [r]
        callback_events := st.callback_events ++ [r]
        total_processed := st.total_processed + 1
        total_processing_time := st.total_processing_time + r.processing_time }

/-- The single-consumer `_processing_loop` run over the FIFO contents: the
worker dequeues from the front, one segment at a time, in submission order. -/
def processingLoop (st : TransState) (queued : List QueuedSegment) : TransState :=
  queued.foldl processOne st

/-! ## Helper lemmas -/

/-- Every path through `_save_current_buffer` leaves the frame buffer empty. -/
lemma save_buffer_empty (c : AudioConfig) (s : CaptureState) (now : ℚ) :
    (saveCurrentBuffer c s now).1.audio_buffer = [] := by
  unfold saveCurrentBuffer
  dsimp only
  split_ifs <;> simp_all

/-- Flush (`_save_current_buffer`) never touches the silence-detection state. -/
lemma save_silence_unchanged (c : AudioConfig) (s : CaptureState) (now : ℚ) :
    (saveCurrentBuffer c s now).1.silence_start = s.silence_start ∧
    (saveCurrentBuffer c s now).1.last_audio_time = s.last_audio_time := by
  unfold saveCurrentBuffer
  dsimp only
  split_ifs <;> simp_all

/-- On every discard path (`none`) the queue and callback history are
untouched. -/
lemma save_none_no_events (c : AudioConfig) (s : CaptureState) (now : ℚ)
    (h : (saveCurrentBuffer c s now).2 = none) :
    (saveCurrentBuffer c s now).1.segment_queue = s.segment_queue ∧
    (saveCurrentBuffer c s now).1.callback_events = s.callback_events := by
  unfold saveCurrentBuffer at h ⊢
  dsimp only at h ⊢
  split_ifs at h ⊢ <;> simp_all

/-- A buffer shorter than the effective minimum duration is discarded. -/
lemma save_discard_short (c : AudioConfig) (s : CaptureState) (now : ℚ)
    (h : durationOf c s.audio_buffer.flatten < c.min_audio_duration.getD 2) :
    (saveCurrentBuffer c s now).2 = none := by
  unfold saveCurrentBuffer
  dsimp only
  split_ifs <;> simp_all

/-- A buffer failing the content check is discarded. -/
lemma save_discard_content (c : AudioConfig) (s : CaptureState) (now : ℚ)
    (h : hasSufficientAudioContent c s.audio_buffer.flatten = false) :
    (saveCurrentBuffer c s now).2 = none := by
  unfold saveCurrentBuffer
  dsimp only
  split_ifs <;> simp_all

/-- Chunking a nonempty list with a positive chunk size yields at least one
chunk. -/
lemma splitChunks_ne_nil (n : ℕ) (l : List ℚ) (hn : n ≠ 0) (hl : l ≠ []) :
    splitChunks n l ≠ [] := by
  unfold splitChunks
  simp [hn, hl]

/-- A nonempty buffer of admissible duration and content is saved: the
produced segment carries the encoded PCM data and the `now − duration` /
`now` bounds. -/
lemma save_success (c : AudioConfig) (s : CaptureState) (now : ℚ)
    (h2 : s.audio_buffer.flatten ≠ [])
    (h3 : ¬ durationOf c s.audio_buffer.flatten < c.min_audio_duration.getD 2)
    (h4 : hasSufficientAudioContent c s.audio_buffer.flatten = true) :
    (saveCurrentBuffer c s now).2 =
      some { start_time := now - durationOf c s.audio_buffer.flatten
             end_time := now
             duration := durationOf c s.audio_buffer.flatten
             sample_rate := c.sample_rate
             wav_samples := encodeInt16 s.audio_buffer.flatten } := by
  have h1 : s.audio_buffer ≠ [] := by
    intro hb
    exact h2 (by rw [hb]; rfl)
  unfold saveCurrentBuffer
  dsimp only
  split_ifs <;> simp_all

/-! ## Claim theorems -/

/-- C2, counterexample: the claim says flush clears the silence-detection
state, but `_save_current_buffer` leaves `_silence_start` and
`_last_audio_time` untouched on every path; here a concrete flush keeps
`_silence_start = 2`. -/
theorem flush_silence_state_counterexample :
    (saveCurrentBuffer defaultAudioConfig
        { initialCaptureState with
            audio_buffer := [[1]],
            silence_start := some (2 : ℚ),
            last_audio_time := some (1 : ℚ) }
        10).1.audio_buffer = [] ∧
    (saveCurrentBuffer defaultAudioConfig
        { initialCaptureState with
            audio_buffer := [[1]],
            silence_start := some (2 : ℚ),
            last_audio_time := some (1 : ℚ) }
        10).1.silence_start = some 2 ∧
    (some (2 : ℚ) ≠ none) := by
  refine ⟨save_buffer_empty _ _ _, ?_, by simp⟩
  rw [(save_silence_unchanged _ _ _).1]

/-- C2 (amended): after every call to `_save_current_buffer` the sample
buffer is empty, but the silence-detection state (`_silence_start`,
`_last_audio_time`) is left exactly as it was — flush does not clear it; it
is reset only when a later frame is scored above the silence threshold. -/
theorem flush_postcondition (c : AudioConfig) (s : CaptureState) (now : ℚ) :
    (saveCurrentBuffer c s now).1.audio_buffer = [] ∧
    (saveCurrentBuffer c s now).1.silence_start = s.silence_start ∧
    (saveCurrentBuffer c s now).1.last_audio_time = s.last_audio_time :=
  ⟨save_buffer_empty c s now, (save_silence_unchanged c s now).1,
   (save_silence_unchanged c s now).2⟩

/-- C3: a buffer whose duration is strictly below the effective minimum
duration is discarded by flush — no segment is produced, nothing is enqueued,
and no segment-complete callback fires. -/
theorem min_duration_gate (c : AudioConfig) (s : CaptureState) (now : ℚ)
    (h : durationOf c s.audio_buffer.flatten < c.min_audio_duration.getD 2) :
    (saveCurrentBuffer c s now).2 = none ∧
    (saveCurrentBuffer c s now).1.segment_queue = s.segment_queue ∧
    (saveCurrentBuffer c s now).1.callback_events = s.callback_events :=
  ⟨save_discard_short c s now h,
   save_none_no_events c s now (save_discard_short c s now h)⟩

/-- C3 witness: a 1-sample buffer at 16 kHz lasts 1/16000 s < 3 s and is
discarded. -/
theorem min_duration_gate_witness :
    durationOf defaultAudioConfig
        ({ initialCaptureState with audio_buffer := [[1]] } :
          CaptureState).audio_buffer.flatten <
      defaultAudioConfig.min_audio_duration.getD 2 ∧
    ((saveCurrentBuffer defaultAudioConfig
        { initialCaptureState with audio_buffer := [[1]] } 0).2 = none ∧
      (saveCurrentBuffer defaultAudioConfig
          { initialCaptureState with audio_buffer := [[1]] } 0).1.segment_queue =
        ({ initialCaptureState with audio_buffer := [[1]] } :
          CaptureState).segment_queue ∧
      (saveCurrentBuffer defaultAudioConfig
          { initialCaptureState with audio_buffer := [[1]] } 0).1.callback_events =
        ({ initialCaptureState with audio_buffer := [[1]] } :
          CaptureState).callback_events) :=
  ⟨by norm_num [durationOf, defaultAudioConfig, initialCaptureState],
   min_duration_gate defaultAudioConfig
    { initialCaptureState with audio_buffer := [[1]] } 0
    (by norm_num [durationOf, defaultAudioConfig, initialCaptureState])⟩

/-- C1, counterexample: the claim reads `_should_segment_on_silence` as true
exactly when a silence timer runs, the elapsed silence reaches
`silence_duration`, and the buffer is nonempty — but the source also requires
`_last_audio_time` to be set.  In a run where every frame so far was below
threshold, the timer runs and the buffer is nonempty, elapsed silence is 5 s
≥ `silence_duration`, yet the check returns false. -/
theorem silence_check_biconditional_counterexample :
    (({ initialCaptureState with
          audio_buffer := [[1]],
          silence_start := some (0 : ℚ) } : CaptureState).silence_start ≠
        none) ∧
    (5 : ℚ) - 0 ≥ defaultAudioConfig.silence_duration ∧
    ({ initialCaptureState with
         audio_buffer := [[1]],
         silence_start := some (0 : ℚ) } : CaptureState).audio_buffer ≠ [] ∧
    shouldSegmentOnSilence defaultAudioConfig
      { initialCaptureState with
          audio_buffer := [[1]],
          silence_start := some (0 : ℚ) } 5 = false :=
  ⟨by simp, by norm_num [defaultAudioConfig], by simp, rfl⟩

/-- C1 (amended): `_should_segment_on_silence` reports a flush exactly when a
silence timer is running, elapsed silence is at least `silence_duration`, the
buffer is nonempty, **and** the last-audio timestamp is set (at least one
above-threshold frame has been observed); whenever the check is true, the
control-loop iteration flushes, leaving the buffer empty. -/
theorem silence_flush_characterization (c : AudioConfig) (s : CaptureState)
    (segment_start now : ℚ) :
    (shouldSegmentOnSilence c s now = true ↔
      ((∃ t, s.silence_start = some t ∧ c.silence_duration ≤ now - t) ∧
        s.last_audio_time ≠ none ∧ s.audio_buffer ≠ [])) ∧
    (shouldSegmentOnSilence c s now = true →
      (recordLoopIter c s segment_start now).1.audio_buffer = []) := by
  constructor
  · unfold shouldSegmentOnSilence
    rcases hss : s.silence_start with _ | t <;>
      rcases hla : s.last_audio_time with _ | u <;>
        simp [hss, hla, List.length_pos, ge_iff_le]
    tauto
  · intro hseg
    unfold recordLoopIter
    dsimp only
    split
    · split
      · exact save_buffer_empty _ _ _
      · exact save_buffer_empty _ _ _
    · exact save_buffer_empty _ _ _

/-- C1 witness: with the timer started at 0, last audio seen at 0, a nonempty
buffer and the default 5 s silence window, at time 5 the check fires and the
loop iteration leaves the buffer empty. -/
theorem silence_flush_characterization_witness :
    shouldSegmentOnSilence defaultAudioConfig
      { initialCaptureState with
          audio_buffer := [[1]],
          silence_start := some (0 : ℚ),
          last_audio_time := some (0 : ℚ) } 5 = true ∧
    (recordLoopIter defaultAudioConfig
      { initialCaptureState with
          audio_buffer := [[1]],
          silence_start := some (0 : ℚ),
          last_audio_time := some (0 : ℚ) } 0 5).1.audio_buffer = [] := by
  have h : shouldSegmentOnSilence defaultAudioConfig
      { initialCaptureState with
          audio_buffer := [[1]],
          silence_start := some (0 : ℚ),
          last_audio_time := some (0 : ℚ) } 5 = true := by
    norm_num [shouldSegmentOnSilence, defaultAudioConfig]
  exact ⟨h, (silence_flush_characterization defaultAudioConfig _ 0 5).2 h⟩

/-- Chunking a nonempty list no longer than the chunk size yields exactly
one chunk: the list itself. -/
lemma splitChunks_single (n : ℕ) (l : List ℚ) (hn : n ≠ 0) (hl : l ≠ [])
    (hlen : l.length ≤ n) : splitChunks n l = [l] := by
  rw [splitChunks]
  rw [dif_neg (by simp [hn, hl])]
  rw [List.take_of_length_le hlen, List.drop_eq_nil_of_le hlen]
  rw [splitChunks]
  simp

/-- C4: the content gate.  A buffer is discarded by flush when its overall
RMS is below the noise gate, or when fewer than 10% of its 100 ms sub-chunks
have RMS above the gate; the gate falls back to `silence_threshold` when
`noise_gate_threshold` is not configured; a buffer with content ratio ≥ 0.10
and overall RMS at or above the gate passes the check, and is saved by flush
when it also meets the minimum duration. -/
theorem content_gate (c : AudioConfig) (s : CaptureState) (now : ℚ)
    (data : List ℚ) (hdata : s.audio_buffer.flatten = data)
    (hsr : 10 ≤ c.sample_rate) (hne : data ≠ []) :
    (sqrtLt (meanSq data) (noiseGate c) = true →
      hasSufficientAudioContent c data = false ∧
        (saveCurrentBuffer c s now).2 = none) ∧
    (contentRatio c data < 1/10 →
      hasSufficientAudioContent c data = false ∧
        (saveCurrentBuffer c s now).2 = none) ∧
    (c.noise_gate_threshold = none → noiseGate c = c.silence_threshold) ∧
    (sqrtLt (meanSq data) (noiseGate c) = false → 1/10 ≤ contentRatio c data →
      hasSufficientAudioContent c data = true) ∧
    (hasSufficientAudioContent c data = true →
      ¬ durationOf c data < c.min_audio_duration.getD 2 →
      (saveCurrentBuffer c s now).2 =
        some { start_time := now - durationOf c data
               end_time := now
               duration := durationOf c data
               sample_rate := c.sample_rate
               wav_samples := encodeInt16 data }) := by
  subst hdata
  have htot : totalChunks c s.audio_buffer.flatten ≠ 0 := by
    have hcs : c.sample_rate / 10 ≠ 0 := by omega
    have hchunks := splitChunks_ne_nil (c.sample_rate / 10)
      s.audio_buffer.flatten hcs hne
    simpa [totalChunks, contentChunks, List.length_eq_zero] using hchunks
  refine ⟨?_, ?_, ?_, ?_, ?_⟩
  · intro h
    have hf : hasSufficientAudioContent c s.audio_buffer.flatten = false := by
      unfold hasSufficientAudioContent
      simp [h]
    exact ⟨hf, save_discard_content c s now hf⟩
  · intro h
    have hf : hasSufficientAudioContent c s.audio_buffer.flatten = false := by
      unfold hasSufficientAudioContent
      split_ifs <;> simp_all [not_le]
    exact ⟨hf, save_discard_content c s now hf⟩
  · intro h
    simp [noiseGate, h]
  · intro h1 h2
    unfold hasSufficientAudioContent
    simp [h1, htot, ge_iff_le]
    linarith
  · intro h1 h2
    exact save_success c s now hne h2 h1

/-- C4 witness: a one-sample buffer of value 1 at the default 16 kHz config
(one sub-chunk, content ratio 1) passes the content check. -/
theorem content_gate_witness :
    (({ initialCaptureState with audio_buffer := [[1]] } :
        CaptureState).audio_buffer.flatten = [1]) ∧
    10 ≤ defaultAudioConfig.sample_rate ∧ ([1] : List ℚ) ≠ [] ∧
    hasSufficientAudioContent defaultAudioConfig [1] = true := by
  refine ⟨rfl, by norm_num [defaultAudioConfig], by simp, ?_⟩
  refine (content_gate defaultAudioConfig
      { initialCaptureState with audio_buffer := [[1]] } 0 [1] rfl
      (by norm_num [defaultAudioConfig]) (by simp)).2.2.2.1 ?_ ?_
  · norm_num [sqrtLt, meanSq, noiseGate, defaultAudioConfig]
  · have hch : contentChunks defaultAudioConfig [1] = [[1]] := by
      unfold contentChunks
      apply splitChunks_single <;> norm_num [defaultAudioConfig]
    have hms : meanSq [1] = 1 := by norm_num [meanSq]
    have hratio : contentRatio defaultAudioConfig [1] = 1 := by
      unfold contentRatio aboveThresholdChunks totalChunks
      rw [hch]
      norm_num [sqrtGt, hms, noiseGate, defaultAudioConfig]
    rw [hratio]
    norm_num

/-- Truncation toward zero moves a rational by less than 1. -/
lemma ratTrunc_close (q : ℚ) : |(ratTrunc q : ℚ) - q| ≤ 1 := by
  unfold ratTrunc
  split
  · have h1 := Int.floor_le q
    have h2 := Int.lt_floor_add_one q
    rw [abs_le]
    constructor <;> push_cast <;> linarith
  · have h1 := Int.le_ceil q
    have h2 := Int.ceil_lt_add_one q
    rw [abs_le]
    constructor <;> push_cast <;> linarith

/-- Truncation of a rational in `[-32767, 32767]` stays in the int16 range. -/
lemma ratTrunc_bound (q : ℚ) (h1 : -32767 ≤ q) (h2 : q ≤ 32767) :
    -32768 ≤ ratTrunc q ∧ ratTrunc q < 32768 := by
  unfold ratTrunc
  split
  · next h0 =>
    constructor
    · have : (0 : ℤ) ≤ ⌊q⌋ := Int.floor_nonneg.mpr h0
      omega
    · have hf : ⌊q⌋ ≤ ⌊(32767 : ℚ)⌋ := Int.floor_le_floor h2
      norm_num at hf
      omega
  · next h0 =>
    have hq0 : q ≤ 0 := le_of_lt (not_le.mp h0)
    constructor
    · have hc : ⌈(-32767 : ℚ)⌉ ≤ ⌈q⌉ := Int.ceil_le_ceil h1
      have he : ((-32767 : ℤ) : ℚ) = (-32767 : ℚ) := by norm_num
      rw [← he, Int.ceil_intCast] at hc
      omega
    · have hc0 : ⌈q⌉ ≤ (0 : ℤ) := Int.ceil_le.mpr (by exact_mod_cast hq0)
      omega

/-- Wrapping (`wrap16`) is the identity on the int16 range. -/
lemma wrap16_eq_self (z : ℤ) (h1 : -32768 ≤ z) (h2 : z < 32768) :
    wrap16 z = z := by
  unfold wrap16
  rw [Int.emod_eq_of_lt (by omega) (by omega)]
  omega

/-- C5, counterexample: the claim says out-of-range samples are clamped
(saturated) to the int16 range, but numpy's `astype(np.int16)` wraps: the
sample 1.5 encodes to −16386, a negative value, not to the saturation value
32767. -/
theorem encode_wraps_counterexample :
    encodeSample (3/2) = -16386 ∧ encodeSample (3/2) ≠ 32767 ∧
      encodeSample (3/2) < 0 := by
  have h : encodeSample (3/2) = -16386 := by
    unfold encodeSample ratTrunc wrap16
    norm_num
  exact ⟨h, by rw [h]; norm_num, by rw [h]; norm_num⟩

/-- C5 (amended): a saved segment is encoded by scaling each sample by 32767
and converting with truncation toward zero and 16-bit wraparound (no
clamping); for every input sample in `[-1, 1]` the decoded value differs from
the original by at most 1/32767.  Out-of-range samples wrap around rather
than saturate. -/
theorem encode_decode_roundtrip (x : ℚ) (hl : -1 ≤ x) (hu : x ≤ 1) :
    |decodeSample (encodeSample x) - x| ≤ 1 / 32767 := by
  have hA := ratTrunc_close (x * 32767)
  have hB := ratTrunc_bound (x * 32767) (by nlinarith) (by nlinarith)
  unfold encodeSample decodeSample
  rw [wrap16_eq_self _ hB.1 hB.2]
  have key : (ratTrunc (x * 32767) : ℚ) / 32767 - x =
      ((ratTrunc (x * 32767) : ℚ) - x * 32767) / 32767 := by ring
  rw [key, abs_div, abs_of_pos (by norm_num : (0 : ℚ) < 32767)]
  exact div_le_div_of_nonneg_right hA (by norm_num) |>.trans (le_refl _)

/-- C5 witness: the sample 1/3 round-trips within 1/32767. -/
theorem encode_decode_roundtrip_witness :
    (-1 : ℚ) ≤ 1/3 ∧ (1/3 : ℚ) ≤ 1 ∧
      |decodeSample (encodeSample (1/3)) - 1/3| ≤ 1 / 32767 :=
  ⟨by norm_num, by norm_num,
   encode_decode_roundtrip (1/3) (by norm_num) (by norm_num)⟩

/-- Processing one segment (`processOne`) appends exactly the produced result (if any). -/
lemma processOne_results (st : TransState) (seg : QueuedSegment) :
    (processOne st seg).results = st.results ++ (transcribeSegment seg).toList := by
  unfold processOne
  cases h : transcribeSegment seg <;> simp [h]

/-- The worker state's results after draining a queue: previous results
followed by the per-segment outcomes in queue order. -/
lemma processingLoop_results (st : TransState) (queued : List QueuedSegment) :
    (processingLoop st queued).results =
      st.results ++ queued.filterMap transcribeSegment := by
  induction queued generalizing st with
  | nil => simp [processingLoop]
  | cons q qs ih =>
      have hstep : processingLoop st (q :: qs) =
          processingLoop (processOne st q) qs := rfl
      rw [hstep, ih]
      cases h : transcribeSegment q <;>
        simp [processOne, h, List.filterMap_cons]

/-- A successful transcription result refers to the consumed segment. -/
lemma transcribeSegment_audio (seg : QueuedSegment) (r : TranscriptionResult)
    (h : transcribeSegment seg = some r) : r.audio_segment = seg := by
  unfold transcribeSegment at h
  split_ifs at h
  rcases ho : seg.engine_outcome with _ | out
  · rw [ho] at h
    cases h
  · rw [ho] at h
    injection h with h2
    rw [← h2]

/-- The consumed segments of the published results form a sublist of the
queue. -/
lemma filterMap_transcribe_sublist (queued : List QueuedSegment) :
    (((queued.filterMap transcribeSegment).map
        fun r => r.audio_segment)).Sublist queued := by
  induction queued with
  | nil => simp
  | cons q qs ih =>
      cases h : transcribeSegment q with
      | none =>
          rw [List.filterMap_cons, h]
          exact ih.cons q
      | some r =>
          rw [List.filterMap_cons, h]
          simpa [transcribeSegment_audio q r h] using ih.cons₂ q

/-- C6: starting from the fresh worker state, the single-consumer loop
publishes, for a queue submitted in order, exactly the per-segment outcomes
in that order (`filterMap`), and the consumed segments of the published
results form a sublist of the queue — so capture order is preserved and each
enqueued segment is transcribed at most once. -/
theorem fifo_order_at_most_once (queued : List QueuedSegment) :
    (processingLoop initialTransState queued).results =
      queued.filterMap transcribeSegment ∧
    (((processingLoop initialTransState queued).results.map
        fun r => r.audio_segment)).Sublist queued := by
  have hres := processingLoop_results initialTransState queued
  have h0 : initialTransState.results = [] := rfl
  rw [h0, List.nil_append] at hres
  exact ⟨hres, by rw [hres]; exact filterMap_transcribe_sublist queued⟩

/-- C7: a consumed segment whose backing file is missing, or on which the
engine raises, produces nothing: no result is published, no callback fires,
the statistics are unchanged (the worker state is exactly as before), and a
missing file yields `none` rather than an error. -/
theorem transcription_failure_no_effect (st : TransState) (seg : QueuedSegment)
    (h : seg.file_exists = false ∨ seg.engine_outcome = none) :
    transcribeSegment seg = none ∧ processOne st seg = st := by
  have hn : transcribeSegment seg = none := by
    unfold transcribeSegment
    rcases h with h | h
    · simp [h]
    · split_ifs <;> simp [h]
  exact ⟨hn, by unfold processOne; rw [hn]⟩

/-- C7 witness: a segment whose file has been removed is skipped with no
state change. -/
theorem transcription_failure_no_effect_witness :
    (({ seg_id := 0, file_exists := false, engine_outcome := none,
        elapsed := 0, timestamp := 0 } : QueuedSegment).file_exists = false ∨
      ({ seg_id := 0, file_exists := false, engine_outcome := none,
         elapsed := 0, timestamp := 0 } : QueuedSegment).engine_outcome =
        none) ∧
    transcribeSegment
        { seg_id := 0, file_exists := false, engine_outcome := none,
          elapsed := 0, timestamp := 0 } = none ∧
    processOne initialTransState
        { seg_id := 0, file_exists := false, engine_outcome := none,
          elapsed := 0, timestamp := 0 } = initialTransState :=
  ⟨Or.inl rfl,
   transcription_failure_no_effect initialTransState
     { seg_id := 0, file_exists := false, engine_outcome := none,
       elapsed := 0, timestamp := 0 } (Or.inl rfl)⟩

/-- C8: while paused, the audio callback drops every delivered frame — the
entire capture state (buffer, silence state, level history) is unchanged, for
one frame and for any sequence of frames — so paused frames never reach the
next flushed segment; resuming merely clears the paused flag, resetting no
silence or duration state. -/
theorem pause_drops_frames (c : AudioConfig) (s : CaptureState) (now : ℚ)
    (indata : List (List ℚ)) (frames : List (ℚ × List (List ℚ)))
    (h : s.paused = true) :
    audioCallback c s now indata = s ∧
    frames.foldl (fun st p => audioCallback c st p.1 p.2) s = s ∧
    (resumeRecording s).paused = false ∧
    (resumeRecording s).audio_buffer = s.audio_buffer ∧
    (resumeRecording s).silence_start = s.silence_start ∧
    (resumeRecording s).last_audio_time = s.last_audio_time ∧
    (resumeRecording s).audio_level_history = s.audio_level_history := by
  have hcb : ∀ (t : ℚ) (ind : List (List ℚ)), audioCallback c s t ind = s := by
    intro t ind
    simp [audioCallback, h]
  refine ⟨hcb now indata, ?_, rfl, rfl, rfl, rfl, rfl⟩
  induction frames with
  | nil => rfl
  | cons p ps ih =>
      rw [List.foldl_cons, hcb p.1 p.2]
      exact ih

/-- C8 witness: a paused capture ignores a delivered frame and a whole frame
sequence. -/
theorem pause_drops_frames_witness :
    (pauseRecording initialCaptureState).paused = true ∧
    audioCallback defaultAudioConfig (pauseRecording initialCaptureState) 0
        [[1]] = pauseRecording initialCaptureState ∧
    ([((0 : ℚ), [[(1 : ℚ)]]), (1, [[(0 : ℚ)]])].foldl
        (fun st p => audioCallback defaultAudioConfig st p.1 p.2)
        (pauseRecording initialCaptureState)) = pauseRecording initialCaptureState :=
  ⟨rfl,
   (pause_drops_frames defaultAudioConfig (pauseRecording initialCaptureState)
      0 [[1]] [((0 : ℚ), [[(1 : ℚ)]]), (1, [[(0 : ℚ)]])] rfl).1,
   (pause_drops_frames defaultAudioConfig (pauseRecording initialCaptureState)
      0 [[1]] [((0 : ℚ), [[(1 : ℚ)]]), (1, [[(0 : ℚ)]])] rfl).2.1⟩

/-- C9, counterexample: the claim says `get_audio_levels` always returns
exactly the five keys `current`, `average`, `maximum`, `threshold`,
`sample_count`; in the source the empty-history branch returns only four
keys, and the non-empty branch names the count key `samples`, so
`sample_count` never appears. -/
theorem audio_levels_keys_counterexample :
    ((getAudioLevels defaultAudioConfig initialCaptureState).map Prod.fst =
      ["current", "average", "maximum", "threshold"]) ∧
    ¬ ("sample_count" ∈ ((getAudioLevels defaultAudioConfig
        { initialCaptureState with
            audio_level_history := [1/100] }).map Prod.fst)) ∧
    ((getAudioLevels defaultAudioConfig
        { initialCaptureState with
            audio_level_history := [1/100] }).map Prod.fst =
      ["current", "average", "maximum", "threshold", "samples"]) := by
  refine ⟨rfl, ?_, rfl⟩
  simp [getAudioLevels]

/-- C9 (amended): `get_audio_levels` returns `threshold` ↦ the configured
silence threshold and never a `sample_count` key; with an empty history it
returns exactly the keys `current`, `average`, `maximum`, `threshold` (all
levels 0), otherwise exactly `current`, `average`, `maximum`, `threshold`,
`samples`, where `current` is the most recent recorded level, `maximum` and
`average` are over the retained history, and `samples` is the history
length. -/
theorem audio_levels_shape (c : AudioConfig) (s : CaptureState) :
    List.lookup "threshold" (getAudioLevels c s) = some c.silence_threshold ∧
    ¬ ("sample_count" ∈ (getAudioLevels c s).map Prod.fst) ∧
    ((s.audio_level_history = [] ∧
        (getAudioLevels c s).map Prod.fst =
          ["current", "average", "maximum", "threshold"]) ∨
      (s.audio_level_history ≠ [] ∧
        (getAudioLevels c s).map Prod.fst =
          ["current", "average", "maximum", "threshold", "samples"] ∧
        List.lookup "current" (getAudioLevels c s) =
          some (s.audio_level_history.getLastD 0) ∧
        List.lookup "maximum" (getAudioLevels c s) =
          some (listMax s.audio_level_history) ∧
        List.lookup "average" (getAudioLevels c s) =
          some (s.audio_level_history.sum / s.audio_level_history.length) ∧
        List.lookup "samples" (getAudioLevels c s) =
          some ((s.audio_level_history.length : ℚ)))) := by
  unfold getAudioLevels
  by_cases hh : s.audio_level_history = []
  · rw [if_pos hh]
    refine ⟨rfl, by simp, Or.inl ⟨hh, rfl⟩⟩
  · rw [if_neg hh]
    refine ⟨rfl, by simp, Or.inr ⟨hh, rfl, rfl, rfl, rfl, rfl⟩⟩

/-- The audio-level history after one scoring step: append the new (squared)
RMS, then drop the oldest entry if the list exceeds 100. -/
lemma update_history (c : AudioConfig) (s : CaptureState) (now : ℚ)
    (frame : List ℚ) :
    (updateSilenceDetection c s now frame).audio_level_history =
      if (s.audio_level_history ++ [meanSq frame]).length > 100
      then (s.audio_level_history ++ [meanSq frame]).tail
      else s.audio_level_history ++ [meanSq frame] := by
  unfold updateSilenceDetection
  dsimp only
  split_ifs <;> rfl

/-- One scoring step preserves the 100-entry bound. -/
lemma update_history_len (c : AudioConfig) (s : CaptureState) (now : ℚ)
    (frame : List ℚ) (h : s.audio_level_history.length ≤ 100) :
    (updateSilenceDetection c s now frame).audio_level_history.length ≤ 100 := by
  rw [update_history]
  split_ifs with hlen <;>
    simp only [List.length_tail, List.length_append, List.length_singleton,
      gt_iff_lt] at * <;>
    omega

/-- After one scoring step the last history entry is the frame's level. -/
lemma update_history_last (c : AudioConfig) (s : CaptureState) (now : ℚ)
    (frame : List ℚ) :
    (updateSilenceDetection c s now frame).audio_level_history.getLast? =
      some (meanSq frame) := by
  rw [update_history]
  split_ifs with hlen
  · rcases hh : s.audio_level_history with _ | ⟨a, rest⟩
    · simp_all
    · simp_all [List.getLast?_concat]
  · exact List.getLast?_concat _

/-- Iterated scoring preserves the 100-entry bound. -/
lemma scoreFrames_len (c : AudioConfig) (evs : List (ℚ × List ℚ)) :
    ∀ s : CaptureState, s.audio_level_history.length ≤ 100 →
      (scoreFrames c s evs).audio_level_history.length ≤ 100 := by
  induction evs with
  | nil => intro s h; exact h
  | cons e es ih =>
      intro s h
      exact ih _ (update_history_len c s e.1 e.2 h)

/-- C10: from any state whose history respects the 100-entry cap, every call
to `_update_silence_detection` keeps the history at ≤ 100 entries with the
most recently scored frame's level as its last element, and no sequence of
scored frames ever grows the history beyond 100 entries. -/
theorem history_capped (c : AudioConfig) (s : CaptureState) (now : ℚ)
    (frame : List ℚ) (evs : List (ℚ × List ℚ))
    (h : s.audio_level_history.length ≤ 100) :
    (updateSilenceDetection c s now frame).audio_level_history.length ≤ 100 ∧
    (updateSilenceDetection c s now frame).audio_level_history.getLast? =
      some (meanSq frame) ∧
    (scoreFrames c s evs).audio_level_history.length ≤ 100 :=
  ⟨update_history_len c s now frame h, update_history_last c s now frame,
   scoreFrames_len c evs s h⟩

/-- C10 witness: scoring a frame from the fresh state keeps the bound and
records the frame's level last. -/
theorem history_capped_witness :
    initialCaptureState.audio_level_history.length ≤ 100 ∧
    ((updateSilenceDetection defaultAudioConfig initialCaptureState 0
        [1]).audio_level_history.length ≤ 100 ∧
      (updateSilenceDetection defaultAudioConfig initialCaptureState 0
          [1]).audio_level_history.getLast? = some (meanSq [1]) ∧
      (scoreFrames defaultAudioConfig initialCaptureState
          [((0 : ℚ), [1])]).audio_level_history.length ≤ 100) :=
  ⟨by simp [initialCaptureState],
   history_capped defaultAudioConfig initialCaptureState 0 [1] [((0 : ℚ), [1])]
     (by simp [initialCaptureState])⟩

end AudioPipeline
